import Mathlib

/-!
Shallow embedding of the exile NIF layer (src/c_src/exile.c).

Each NIF is modelled as a pure function from the handle state (`ExecContext`)
and the outcomes of the syscalls it issues (passed in as explicit oracle
arguments) to the returned Erlang term, the updated handle state, and the
list of side effects (syscalls and enif_select registrations) it performed,
in order.
-/

namespace Exile

/-- Sentinel for a closed pipe direction (`PIPE_CLOSED` in exile.c). -/
def PIPE_CLOSED : Int := -1

/-- Sentinel stored in `ctx->pid` once the child has been reaped (`CMD_EXIT`). -/
def CMD_EXIT : Int := -1

/-- Sentinel request size selecting unbuffered-read mode (`UNBUFFERED_READ`). -/
def UNBUFFERED_READ : Int := -1

/-- Fixed read chunk cap (`PIPE_BUF_SIZE` in exile.c): 65535 bytes. -/
def PIPE_BUF_SIZE : Int := 65535

/-- errno value EAGAIN (Linux). -/
def EAGAIN : Int := 11

/-- errno value EWOULDBLOCK (equal to EAGAIN on Linux). -/
def EWOULDBLOCK : Int := 11

/-- Signal number SIGTERM. -/
def SIGTERM : Int := 15

/-- Signal number SIGKILL. -/
def SIGKILL : Int := 9

/-- `enum exit_type` from exile.c. -/
inductive ExitType where
  | NORMAL_EXIT
  | SIGNALED
  | STOPPED
deriving DecidableEq, Repr

/-- `struct ExecContext` from exile.c: the per-process handle state. -/
structure ExecContext where
  cmd_input_fd : Int
  cmd_output_fd : Int
  exit_status : Int
  exit_type : ExitType
  pid : Int
deriving DecidableEq, Repr

/-- Atoms appearing inside returned terms. -/
inductive Atom where
  | closed_pipe
  | eagain
  | exit
  | signaled
  | stopped
deriving DecidableEq, Repr

/-- The Erlang terms the modelled NIFs return. -/
inductive Term where
  | atomOk
  | okInt (n : Int)
  | okBool (b : Bool)
  | okBin (bytes : List Nat)
  | okStatus (a : Atom) (n : Int)
  | errAtom (a : Atom)
  | errInt (n : Int)
  | errPair (wpid : Int) (status : Nat)
  | badarg
deriving DecidableEq, Repr

/-- Side effects a NIF call performs, in order: syscalls and enif_select
registrations/deregistrations. -/
inductive Effect where
  | sysRead (fd : Int) (size : Int)
  | sysWrite (fd : Int) (size : Nat)
  | sysClose (fd : Int)
  | sysKill (pid : Int) (sig : Int)
  | sysWaitpid (pid : Int)
  | selectRead (fd : Int)
  | selectWrite (fd : Int)
  | selectStop (fd : Int)
deriving DecidableEq, Repr

/-- Outcome of the single read(2) syscall: either the bytes it transferred
(result = length, nonnegative) or a failure with an errno. -/
inductive ReadOutcome where
  | bytes (data : List Nat)
  | fail (errno : Int)
deriving DecidableEq, Repr

/-- `sys_write` (exile.c lines 465-509). `writeResult` is the return value of
the write(2) syscall (-1 on failure), `writeErrno` the errno it set, and
`selectRetval` the return value of enif_select in `select_write`. -/
def sys_write (ctx : ExecContext) (bin : List Nat)
    (writeResult writeErrno selectRetval : Int) :
    Term × ExecContext × List Effect :=
  if ctx.cmd_input_fd = PIPE_CLOSED then
    (Term.errAtom Atom.closed_pipe, ctx, [])
  else if bin.length = 0 then
    (Term.badarg, ctx, [])
  else
    let effs : List Effect := [Effect.sysWrite ctx.cmd_input_fd bin.length]
    if writeResult ≥ (bin.length : Int) then
      (Term.okInt writeResult, ctx, effs)
    else if writeResult ≥ 0 then
      let effs := effs ++ [Effect.selectWrite ctx.cmd_input_fd]
      if selectRetval ≠ 0 then (Term.errInt selectRetval, ctx, effs)
      else (Term.okInt writeResult, ctx, effs)
    else if writeErrno = EAGAIN ∨ writeErrno = EWOULDBLOCK then
      let effs := effs ++ [Effect.selectWrite ctx.cmd_input_fd]
      if selectRetval ≠ 0 then (Term.errInt selectRetval, ctx, effs)
      else (Term.errAtom Atom.eagain, ctx, effs)
    else
      (Term.errInt writeErrno, ctx, effs)

/-- The buffer-size computation of `sys_read` (exile.c lines 582-590).
Note the faithfully reproduced slip: in the `request < 1` branch the C code
calls `enif_make_badarg(env)` but never returns the term, so `size` keeps
the value `request` and control falls through to the read. -/
def read_buf_size (request : Int) : Int :=
  if request = UNBUFFERED_READ then PIPE_BUF_SIZE
  else if request < 1 then request
  else if request > PIPE_BUF_SIZE then PIPE_BUF_SIZE
  else request

/-- `sys_read` (exile.c lines 565-627). `outcome` is the result of the single
read(2) syscall; `selectRetval` the return value of enif_select in
`select_read`. -/
def sys_read (ctx : ExecContext) (request : Int) (outcome : ReadOutcome)
    (selectRetval : Int) : Term × ExecContext × List Effect :=
  if ctx.cmd_output_fd = PIPE_CLOSED then
    (Term.errAtom Atom.closed_pipe, ctx, [])
  else
    let size := read_buf_size request
    let effs : List Effect := [Effect.sysRead ctx.cmd_output_fd size]
    match outcome with
    | ReadOutcome.bytes data =>
      if (data.length : Int) = request ∨ data.length = 0 ∨
          request = UNBUFFERED_READ then
        (Term.okBin data, ctx, effs)
      else
        let effs := effs ++ [Effect.selectRead ctx.cmd_output_fd]
        if selectRetval ≠ 0 then (Term.errInt selectRetval, ctx, effs)
        else (Term.okBin data, ctx, effs)
    | ReadOutcome.fail e =>
      if e = EAGAIN ∨ e = EWOULDBLOCK then
        let effs := effs ++ [Effect.selectRead ctx.cmd_output_fd]
        if selectRetval ≠ 0 then (Term.errInt selectRetval, ctx, effs)
        else (Term.errAtom Atom.eagain, ctx, effs)
      else
        (Term.errInt e, ctx, effs)

/-- `sys_close` (exile.c lines 511-555). `kind` 0 closes the input direction,
1 the output direction. `closeResult` is the return value of close(2) and
`closeErrno` the errno it set on failure. -/
def sys_close (ctx : ExecContext) (kind closeResult closeErrno : Int) :
    Term × ExecContext × List Effect :=
  if kind = 0 then
    if ctx.cmd_input_fd = PIPE_CLOSED then (Term.atomOk, ctx, [])
    else
      let effs : List Effect :=
        [Effect.selectStop ctx.cmd_input_fd, Effect.sysClose ctx.cmd_input_fd]
      if closeResult = 0 then
        (Term.atomOk, { ctx with cmd_input_fd := PIPE_CLOSED }, effs)
      else (Term.errInt closeErrno, ctx, effs)
  else if kind = 1 then
    if ctx.cmd_output_fd = PIPE_CLOSED then (Term.atomOk, ctx, [])
    else
      let effs : List Effect :=
        [Effect.selectStop ctx.cmd_output_fd, Effect.sysClose ctx.cmd_output_fd]
      if closeResult = 0 then
        (Term.atomOk, { ctx with cmd_output_fd := PIPE_CLOSED }, effs)
      else (Term.errInt closeErrno, ctx, effs)
  else (Term.badarg, ctx, [])

/-- `is_alive` (exile.c lines 629-644). `killResult` is the return value of
the zero-signal kill(2) probe. -/
def is_alive (ctx : ExecContext) (killResult : Int) : Term × List Effect :=
  if ctx.pid = CMD_EXIT then (Term.okBool true, [])
  else if killResult = 0 then (Term.okBool true, [Effect.sysKill ctx.pid 0])
  else (Term.okBool false, [Effect.sysKill ctx.pid 0])

/-- `sys_terminate` (exile.c lines 646-654). `killResult` is the return value
of kill(2) with SIGTERM. -/
def sys_terminate (ctx : ExecContext) (killResult : Int) : Term × List Effect :=
  if ctx.pid = CMD_EXIT then (Term.okInt 0, [])
  else (Term.okInt killResult, [Effect.sysKill ctx.pid SIGTERM])

/-- `sys_kill` (exile.c lines 656-664). `killResult` is the return value of
kill(2) with SIGKILL. -/
def sys_kill (ctx : ExecContext) (killResult : Int) : Term × List Effect :=
  if ctx.pid = CMD_EXIT then (Term.okInt 0, [])
  else (Term.okInt killResult, [Effect.sysKill ctx.pid SIGKILL])

/-- `make_exit_term` (exile.c lines 666-682). -/
def make_exit_term (ctx : ExecContext) : Term :=
  match ctx.exit_type with
  | ExitType.NORMAL_EXIT => Term.okStatus Atom.exit ctx.exit_status
  | ExitType.SIGNALED => Term.okStatus Atom.signaled ctx.exit_status
  | ExitType.STOPPED => Term.okStatus Atom.stopped ctx.exit_status

/-- WIFEXITED(status) as on glibc: low seven bits zero. -/
def wifexited (s : Nat) : Bool := s % 128 = 0

/-- WEXITSTATUS(status) as on glibc: bits 8-15. -/
def wexitstatus (s : Nat) : Nat := (s / 256) % 256

/-- WIFSIGNALED(status) as on glibc:
((signed char) ((s & 0x7f) + 1) >> 1) > 0. The cast to signed char happens
before the shift, so a low-seven-bits value of 0x7f (the job-control stop
marker) wraps to -128 and is excluded: true exactly for s % 128 in 1..126. -/
def wifsignaled (s : Nat) : Bool :=
  let v : Int := (s % 128 + 1 : Nat)
  let c : Int := if v < 128 then v else v - 256
  0 < c / 2

/-- WTERMSIG(status) as on glibc: low seven bits. -/
def wtermsig (s : Nat) : Nat := s % 128

/-- WIFSTOPPED(status) as on glibc: low byte 0x7f. -/
def wifstopped (s : Nat) : Bool := s % 256 = 127

/-- `sys_wait` (exile.c lines 684-716). `wpid` and `status` are the results
filled in by the non-blocking waitpid(2) syscall. -/
def sys_wait (ctx : ExecContext) (wpid : Int) (status : Nat) :
    Term × ExecContext × List Effect :=
  if ctx.pid = CMD_EXIT then (make_exit_term ctx, ctx, [])
  else
    let effs : List Effect := [Effect.sysWaitpid ctx.pid]
    if wpid = ctx.pid then
      let ctx2 :=
        if wifexited status then
          { ctx with pid := CMD_EXIT, exit_type := ExitType.NORMAL_EXIT,
                     exit_status := (wexitstatus status : Int) }
        else if wifsignaled status then
          { ctx with pid := CMD_EXIT, exit_type := ExitType.SIGNALED,
                     exit_status := (wtermsig status : Int) }
        else if wifstopped status then
          { ctx with pid := CMD_EXIT, exit_type := ExitType.STOPPED,
                     exit_status := 0 }
        else { ctx with pid := CMD_EXIT }
      (make_exit_term ctx2, ctx2, effs)
    else (Term.errPair wpid status, ctx, effs)

/-- True when the effect list contains no kill(2) syscall. -/
def no_kill_effect (effs : List Effect) : Bool :=
  effs.all fun ef =>
    match ef with
    | Effect.sysKill _ _ => false
    | _ => true

/-- A handle whose child has been reaped after dying from SIGKILL. -/
def reapedCtx : ExecContext :=
  { cmd_input_fd := PIPE_CLOSED, cmd_output_fd := PIPE_CLOSED,
    exit_status := 9, exit_type := ExitType.SIGNALED, pid := CMD_EXIT }

/-- A handle with both directions open and a live child pid. -/
def openCtx : ExecContext :=
  { cmd_input_fd := 4, cmd_output_fd := 5,
    exit_status := 0, exit_type := ExitType.NORMAL_EXIT, pid := 123 }

/-- C1 counterexample: on a reaped handle (pid = CMD_EXIT) is_alive returns
{:ok, true}, not {:ok, false} as the claim states. -/
theorem c1_reaped_is_alive_counterexample :
    (is_alive reapedCtx 0).1 = Term.okBool true ∧
    (is_alive reapedCtx 0).1 ≠ Term.okBool false := by
  decide

/-- C1 (amended): once reaped, is_alive returns {:ok, true} without issuing
any probe; while un-reaped it probes the process with a zero-signal kill and
returns {:ok, true} exactly when the probe succeeds, {:ok, false} otherwise. -/
theorem is_alive_spec (ctx : ExecContext) (killResult : Int) :
    (ctx.pid = CMD_EXIT → is_alive ctx killResult = (Term.okBool true, [])) ∧
    (ctx.pid ≠ CMD_EXIT → killResult = 0 →
      is_alive ctx killResult = (Term.okBool true, [Effect.sysKill ctx.pid 0])) ∧
    (ctx.pid ≠ CMD_EXIT → killResult ≠ 0 →
      is_alive ctx killResult = (Term.okBool false, [Effect.sysKill ctx.pid 0])) := by
  refine ⟨fun h => ?_, fun h hk => ?_, fun h hk => ?_⟩
  · simp [is_alive, h]
  · simp [is_alive, h, hk]
  · simp [is_alive, h, hk]

/-- C1 witness: the amended statement evaluated on a reaped handle and on a
live handle whose zero-signal probe fails. -/
theorem is_alive_spec_witness :
    is_alive reapedCtx 0 = (Term.okBool true, []) ∧
    is_alive openCtx 3 = (Term.okBool false, [Effect.sysKill 123 0]) :=
  ⟨(is_alive_spec reapedCtx 0).1 (by decide),
   (is_alive_spec openCtx 3).2.2 (by decide) (by decide)⟩

/-- C2 counterexample: the fixed chunk cap is PIPE_BUF_SIZE = 65535 bytes,
not 64 KiB = 65536; in particular the unbuffered-mode buffer size is 65535,
and a request of 100000 bytes issues a read of size 65535. -/
theorem c2_read_cap_counterexample :
    read_buf_size UNBUFFERED_READ = 65535 ∧
    read_buf_size UNBUFFERED_READ ≠ 65536 ∧
    (sys_read openCtx 100000 (ReadOutcome.bytes []) 0).2.2 =
      [Effect.sysRead 5 65535] := by
  decide

/-- C2 (amended): the single read syscall's buffer size is capped at
PIPE_BUF_SIZE = 65535 bytes (one below 64 KiB) regardless of the requested
size, and the same cap is the buffer size in unbuffered mode. -/
theorem read_cap_spec (ctx : ExecContext) (request : Int) (outcome : ReadOutcome)
    (selectRetval : Int) :
    read_buf_size UNBUFFERED_READ = PIPE_BUF_SIZE ∧
    PIPE_BUF_SIZE = 65535 ∧
    (1 ≤ request → read_buf_size request = min request PIPE_BUF_SIZE) ∧
    (ctx.cmd_output_fd ≠ PIPE_CLOSED →
      ((sys_read ctx request outcome selectRetval).2.2).head? =
        some (Effect.sysRead ctx.cmd_output_fd (read_buf_size request))) := by
  refine ⟨rfl, rfl, fun h => ?_, fun h => ?_⟩
  · unfold read_buf_size UNBUFFERED_READ PIPE_BUF_SIZE
    split_ifs <;> omega
  · unfold sys_read
    rw [if_neg h]
    cases outcome <;> dsimp only <;> split_ifs <;> rfl

/-- C2 witness: the amended statement evaluated at a request above the cap. -/
theorem read_cap_spec_witness :
    read_buf_size 100000 = min 100000 PIPE_BUF_SIZE ∧
    ((sys_read openCtx 100000 (ReadOutcome.bytes []) 0).2.2).head? =
      some (Effect.sysRead openCtx.cmd_output_fd (read_buf_size 100000)) :=
  ⟨(read_cap_spec openCtx 100000 (ReadOutcome.bytes []) 0).2.2.1 (by decide),
   (read_cap_spec openCtx 100000 (ReadOutcome.bytes []) 0).2.2.2 (by decide)⟩

/-- C3: once the pid is marked reaped (CMD_EXIT), wait returns the cached
terminal classification with no waitpid syscall and an unchanged handle, and
terminate and kill return {:ok, 0} with no signal sent; moreover a successful
reap (waitpid returning the child's pid) marks the pid reaped. -/
theorem reaped_terminal_spec (ctx : ExecContext) (wpid : Int) (status : Nat)
    (killResult : Int) :
    (ctx.pid = CMD_EXIT →
      sys_wait ctx wpid status = (make_exit_term ctx, ctx, []) ∧
      sys_terminate ctx killResult = (Term.okInt 0, []) ∧
      sys_kill ctx killResult = (Term.okInt 0, [])) ∧
    (ctx.pid ≠ CMD_EXIT → wpid = ctx.pid →
      ((sys_wait ctx wpid status).2.1).pid = CMD_EXIT) := by
  constructor
  · intro h
    refine ⟨?_, ?_, ?_⟩ <;> simp [sys_wait, sys_terminate, sys_kill, h]
  · intro h hw
    unfold sys_wait
    rw [if_neg h, if_pos hw]
    dsimp only
    split_ifs <;> rfl

/-- C3 witness: the statement evaluated on a reaped handle, and on a live
handle that a wait successfully reaps. -/
theorem reaped_terminal_spec_witness :
    (sys_wait reapedCtx 0 0 = (make_exit_term reapedCtx, reapedCtx, []) ∧
     sys_terminate reapedCtx 7 = (Term.okInt 0, []) ∧
     sys_kill reapedCtx 7 = (Term.okInt 0, [])) ∧
    ((sys_wait openCtx 123 0).2.1).pid = CMD_EXIT :=
  ⟨(reaped_terminal_spec reapedCtx 0 0 7).1 (by decide),
   (reaped_terminal_spec openCtx 123 0 7).2 (by decide) (by decide)⟩

/-- C4: with an open input direction and non-empty payload, a write whose
syscall consumes n bytes with 0 < n < len returns {:ok, n} and registers a
write-readiness subscription; a write whose syscall consumes all len bytes
returns {:ok, len} and registers nothing. -/
theorem write_result_spec (ctx : ExecContext) (bin : List Nat)
    (writeResult writeErrno : Int)
    (hopen : ctx.cmd_input_fd ≠ PIPE_CLOSED) (hbin : bin ≠ []) :
    (0 < writeResult → writeResult < (bin.length : Int) →
      sys_write ctx bin writeResult writeErrno 0 =
        (Term.okInt writeResult, ctx,
         [Effect.sysWrite ctx.cmd_input_fd bin.length,
          Effect.selectWrite ctx.cmd_input_fd])) ∧
    (writeResult = (bin.length : Int) →
      sys_write ctx bin writeResult writeErrno 0 =
        (Term.okInt writeResult, ctx,
         [Effect.sysWrite ctx.cmd_input_fd bin.length])) := by
  have hlen : ¬ bin.length = 0 := fun hz => hbin (List.length_eq_zero.mp hz)
  constructor
  · intro h1 h2
    unfold sys_write
    rw [if_neg hopen, if_neg hlen, if_neg (by omega), if_pos (by omega)]
    simp
  · intro h
    unfold sys_write
    rw [if_neg hopen, if_neg hlen, if_pos (by omega)]

/-- C4 witness: the statement evaluated for a partial write of 1 of 3 bytes
and for a full write of 3 bytes. -/
theorem write_result_spec_witness :
    sys_write openCtx [10, 20, 30] 1 0 0 =
      (Term.okInt 1, openCtx,
       [Effect.sysWrite 4 3, Effect.selectWrite 4]) ∧
    sys_write openCtx [10, 20, 30] 3 0 0 =
      (Term.okInt 3, openCtx, [Effect.sysWrite 4 3]) :=
  ⟨(write_result_spec openCtx [10, 20, 30] 1 0 (by decide) (by decide)).1
      (by decide) (by decide),
   (write_result_spec openCtx [10, 20, 30] 3 0 (by decide) (by decide)).2
      (by decide)⟩

/-- C5: a read or write whose syscall fails with EAGAIN/EWOULDBLOCK registers
a fresh readiness subscription for its direction and returns the transient
eagain outcome; any other errno is returned verbatim with no readiness
registered. -/
theorem transient_io_spec (ctx : ExecContext) (bin : List Nat)
    (writeErrno request e : Int)
    (hin : ctx.cmd_input_fd ≠ PIPE_CLOSED)
    (hout : ctx.cmd_output_fd ≠ PIPE_CLOSED) (hbin : bin ≠ []) :
    (writeErrno = EAGAIN ∨ writeErrno = EWOULDBLOCK →
      sys_write ctx bin (-1) writeErrno 0 =
        (Term.errAtom Atom.eagain, ctx,
         [Effect.sysWrite ctx.cmd_input_fd bin.length,
          Effect.selectWrite ctx.cmd_input_fd])) ∧
    (writeErrno ≠ EAGAIN ∧ writeErrno ≠ EWOULDBLOCK →
      sys_write ctx bin (-1) writeErrno 0 =
        (Term.errInt writeErrno, ctx,
         [Effect.sysWrite ctx.cmd_input_fd bin.length])) ∧
    (e = EAGAIN ∨ e = EWOULDBLOCK →
      sys_read ctx request (ReadOutcome.fail e) 0 =
        (Term.errAtom Atom.eagain, ctx,
         [Effect.sysRead ctx.cmd_output_fd (read_buf_size request),
          Effect.selectRead ctx.cmd_output_fd])) ∧
    (e ≠ EAGAIN ∧ e ≠ EWOULDBLOCK →
      sys_read ctx request (ReadOutcome.fail e) 0 =
        (Term.errInt e, ctx,
         [Effect.sysRead ctx.cmd_output_fd (read_buf_size request)])) := by
  have hlen : ¬ bin.length = 0 := fun hz => hbin (List.length_eq_zero.mp hz)
  have hneg1 : ¬ ((-1 : Int) ≥ (bin.length : Int)) := by omega
  have hneg2 : ¬ ((-1 : Int) ≥ 0) := by omega
  refine ⟨fun h => ?_, fun h => ?_, fun h => ?_, fun h => ?_⟩
  · unfold sys_write
    rw [if_neg hin, if_neg hlen, if_neg hneg1, if_neg hneg2, if_pos h]
    simp
  · unfold sys_write
    rw [if_neg hin, if_neg hlen, if_neg hneg1, if_neg hneg2,
        if_neg (not_or.mpr h)]
  · unfold sys_read
    rw [if_neg hout]
    dsimp only
    rw [if_pos h]
    simp
  · unfold sys_read
    rw [if_neg hout]
    dsimp only
    rw [if_neg (not_or.mpr h)]

/-- C5 witness: the statement evaluated for errno 11 (EAGAIN) and errno 32
(EPIPE) on both directions. -/
theorem transient_io_spec_witness :
    sys_write openCtx [1] (-1) 11 0 =
      (Term.errAtom Atom.eagain, openCtx,
       [Effect.sysWrite 4 1, Effect.selectWrite 4]) ∧
    sys_write openCtx [1] (-1) 32 0 =
      (Term.errInt 32, openCtx, [Effect.sysWrite 4 1]) ∧
    sys_read openCtx 10 (ReadOutcome.fail 11) 0 =
      (Term.errAtom Atom.eagain, openCtx,
       [Effect.sysRead 5 10, Effect.selectRead 5]) ∧
    sys_read openCtx 10 (ReadOutcome.fail 32) 0 =
      (Term.errInt 32, openCtx, [Effect.sysRead 5 10]) :=
  ⟨(transient_io_spec openCtx [1] 11 10 11 (by decide) (by decide)
      (by decide)).1 (Or.inl rfl),
   (transient_io_spec openCtx [1] 32 10 32 (by decide) (by decide)
      (by decide)).2.1 (by decide),
   (transient_io_spec openCtx [1] 11 10 11 (by decide) (by decide)
      (by decide)).2.2.1 (Or.inl rfl),
   (transient_io_spec openCtx [1] 32 10 32 (by decide) (by decide)
      (by decide)).2.2.2 (by decide)⟩

/-- C6: a write on a closed input direction returns the closed-pipe error
with no syscall; a write of an empty payload on an open input returns badarg
with no syscall; a read on a closed output direction returns the closed-pipe
error with no syscall. -/
theorem reject_closed_spec (ctx : ExecContext) (bin : List Nat)
    (writeResult writeErrno selectRetval request sel2 : Int)
    (outcome : ReadOutcome) :
    (ctx.cmd_input_fd = PIPE_CLOSED →
      sys_write ctx bin writeResult writeErrno selectRetval =
        (Term.errAtom Atom.closed_pipe, ctx, [])) ∧
    (ctx.cmd_input_fd ≠ PIPE_CLOSED → bin = [] →
      sys_write ctx bin writeResult writeErrno selectRetval =
        (Term.badarg, ctx, [])) ∧
    (ctx.cmd_output_fd = PIPE_CLOSED →
      sys_read ctx request outcome sel2 =
        (Term.errAtom Atom.closed_pipe, ctx, [])) := by
  refine ⟨fun h => ?_, fun h hb => ?_, fun h => ?_⟩
  · unfold sys_write
    rw [if_pos h]
  · unfold sys_write
    rw [if_neg h, if_pos (by simp [hb])]
  · unfold sys_read
    rw [if_pos h]

/-- C6 witness: the statement evaluated on a handle with both directions
closed and on an open handle with an empty payload. -/
theorem reject_closed_spec_witness :
    sys_write reapedCtx [1, 2] 2 0 0 =
      (Term.errAtom Atom.closed_pipe, reapedCtx, []) ∧
    sys_write openCtx [] 0 0 0 = (Term.badarg, openCtx, []) ∧
    sys_read reapedCtx 10 (ReadOutcome.bytes []) 0 =
      (Term.errAtom Atom.closed_pipe, reapedCtx, []) :=
  ⟨(reject_closed_spec reapedCtx [1, 2] 2 0 0 10 0
      (ReadOutcome.bytes [])).1 (by decide),
   (reject_closed_spec openCtx [] 0 0 0 10 0
      (ReadOutcome.bytes [])).2.1 (by decide) rfl,
   (reject_closed_spec reapedCtx [1, 2] 2 0 0 10 0
      (ReadOutcome.bytes [])).2.2 (by decide)⟩

/-- C7: an unbuffered-mode read (sentinel request) whose syscall transfers
any number of bytes, even fewer than the chunk cap, returns success with
those bytes and registers no readiness subscription. -/
theorem unbuffered_read_spec (ctx : ExecContext) (data : List Nat)
    (selectRetval : Int) (hout : ctx.cmd_output_fd ≠ PIPE_CLOSED) :
    sys_read ctx UNBUFFERED_READ (ReadOutcome.bytes data) selectRetval =
      (Term.okBin data, ctx,
       [Effect.sysRead ctx.cmd_output_fd PIPE_BUF_SIZE]) := by
  unfold sys_read
  rw [if_neg hout]
  dsimp only
  rw [if_pos (Or.inr (Or.inr rfl))]
  rfl

/-- C7 witness: an unbuffered read returning 3 bytes, far below the cap,
registers nothing. -/
theorem unbuffered_read_spec_witness :
    sys_read openCtx UNBUFFERED_READ (ReadOutcome.bytes [1, 2, 3]) 0 =
      (Term.okBin [1, 2, 3], openCtx, [Effect.sysRead 5 PIPE_BUF_SIZE]) :=
  unbuffered_read_spec openCtx [1, 2, 3] 0 (by decide)

/-- C8: close is idempotent per direction: when the close(2) syscall
succeeds, the first close returns :ok, and a second close of the same
direction returns :ok with no syscalls and leaves the handle state exactly
as after the single close. -/
theorem close_idempotent_spec (ctx : ExecContext) (kind closeErrno r2 e2 : Int)
    (hk : kind = 0 ∨ kind = 1) :
    (sys_close ctx kind 0 closeErrno).1 = Term.atomOk ∧
    sys_close ((sys_close ctx kind 0 closeErrno).2.1) kind r2 e2 =
      (Term.atomOk, (sys_close ctx kind 0 closeErrno).2.1, []) := by
  rcases hk with hk | hk <;> subst hk <;>
    unfold sys_close <;> split_ifs <;> simp_all

/-- C8 witness: closing the open input direction twice. -/
theorem close_idempotent_spec_witness :
    (sys_close openCtx 0 0 0).1 = Term.atomOk ∧
    sys_close ((sys_close openCtx 0 0 0).2.1) 0 0 0 =
      (Term.atomOk, (sys_close openCtx 0 0 0).2.1, []) :=
  close_idempotent_spec openCtx 0 0 0 0 (Or.inl rfl)

/-- C9: close only touches its own direction: the pid, the recorded exit
classification, and the other direction's descriptor are unchanged, and no
kill syscall is among its effects. -/
theorem close_frame_spec (ctx : ExecContext) (kind closeResult closeErrno : Int) :
    ((sys_close ctx kind closeResult closeErrno).2.1).pid = ctx.pid ∧
    ((sys_close ctx kind closeResult closeErrno).2.1).exit_type = ctx.exit_type ∧
    ((sys_close ctx kind closeResult closeErrno).2.1).exit_status =
      ctx.exit_status ∧
    (kind = 0 →
      ((sys_close ctx kind closeResult closeErrno).2.1).cmd_output_fd =
        ctx.cmd_output_fd) ∧
    (kind = 1 →
      ((sys_close ctx kind closeResult closeErrno).2.1).cmd_input_fd =
        ctx.cmd_input_fd) ∧
    no_kill_effect (sys_close ctx kind closeResult closeErrno).2.2 = true := by
  unfold sys_close no_kill_effect
  split_ifs <;> simp_all

/-- C9 witness: closing the open input direction of a live handle preserves
the pid, the exit classification, the output descriptor, and sends no
signal. -/
theorem close_frame_spec_witness :
    ((sys_close openCtx 0 0 0).2.1).pid = openCtx.pid ∧
    ((sys_close openCtx 0 0 0).2.1).cmd_output_fd = openCtx.cmd_output_fd ∧
    no_kill_effect (sys_close openCtx 0 0 0).2.2 = true :=
  ⟨(close_frame_spec openCtx 0 0 0).1,
   (close_frame_spec openCtx 0 0 0).2.2.2.1 rfl,
   (close_frame_spec openCtx 0 0 0).2.2.2.2.2⟩

/-- C10: code bug. For request = 0 (less than 1 and not the unbuffered
sentinel) on an open output direction, sys_read computes the badarg term but
never returns it (missing return in exile.c line 587), so it falls through,
uses the non-positive request itself as the buffer length, and issues the
read syscall, returning {:ok, <<>>} instead of badarg. -/
theorem read_zero_size_bug :
    sys_read openCtx 0 (ReadOutcome.bytes []) 0 =
      (Term.okBin [], openCtx, [Effect.sysRead 5 0]) ∧
    (sys_read openCtx 0 (ReadOutcome.bytes []) 0).1 ≠ Term.badarg := by
  decide

end Exile
